import Mathlib

set_option maxHeartbeats 1000000

/-!
Shallow embedding of `src/backend/src/utils/mod.rs` (web-backend helper
routines: password hashing and verification, JWT cookie extraction, ObjectId
hex (de)serialization, duplicate-key error translation, random SKU
generation).

Modelling conventions: Rust strings are `List Char`; randomness drawn inside a
function (the argon2 salt, the nanoid character draw) is passed as an explicit
argument; the external argon2 digest primitive and the JWT decoder from the
crate's `jwt` module (whose source file is not part of this fragment) are
universally quantified function parameters.
-/

/-- Modelled from the spec: `crate::errors::ServiceError` (src/errors.rs is not
part of this fragment); the spec describes it as "a generic service-error
enumeration (unauthorized, conflict)". -/
inductive ServiceError : Type
  | unauthorized (msg : List Char)
  | conflict (msg : List Char)
  deriving DecidableEq

/-! ### ObjectId hex serialization (`object_id_as_string`, `opt_object_id_as_string`, `string_id_to_obj_id`) -/

/-- Hex digit character for a value below 16 (lowercase, as `ObjectId::to_hex`):
code 48 (`'0'`) upward for values below ten, code 87 + value (`'a'` = 97)
for the rest. -/
def hexDigitChar (n : Nat) : Char :=
  if n < 10 then Char.ofNat (48 + n) else Char.ofNat (87 + n)

/-- Lowercase hex encoding of a byte list, two characters per byte
(the `hex` crate encoding used by `ObjectId::to_hex`). -/
def bytesToHex : List Nat → List Char
  | [] => []
  | b :: bs => hexDigitChar (b / 16) :: hexDigitChar (b % 16) :: bytesToHex bs

/-- Value of a hex digit character, accepting both cases
(the `hex` crate decoding used by `ObjectId::parse_str`): digits have codes
48 to 57, lowercase letters 97 to 102, uppercase letters 65 to 70. -/
def hexCharVal (c : Char) : Option Nat :=
  if 48 ≤ c.toNat ∧ c.toNat ≤ 57 then some (c.toNat - 48)
  else if 97 ≤ c.toNat ∧ c.toNat ≤ 102 then some (c.toNat - 87)
  else if 65 ≤ c.toNat ∧ c.toNat ≤ 70 then some (c.toNat - 55)
  else none

/-- Hex decoding of a character list into bytes; fails on odd length or a
non-hex character. -/
def hexToBytes : List Char → Option (List Nat)
  | [] => some []
  | [_] => none
  | c1 :: c2 :: rest =>
    match hexCharVal c1, hexCharVal c2, hexToBytes rest with
    | some hi, some lo, some bs => some ((hi * 16 + lo) :: bs)
    | _, _, _ => none

/-- `bson::oid::ObjectId`: twelve bytes. -/
def ObjectId : Type := { bs : List Nat // bs.length = 12 ∧ ∀ b ∈ bs, b < 256 }

/-- `ObjectId::to_hex`: the 24-character lowercase hex rendering. -/
def ObjectId.to_hex (o : ObjectId) : List Char := bytesToHex o.val

/-- Abstract model of a serde `Serializer` with output type `α`: the two entry
points the source uses (`serialize_str` and `serialize_none`). -/
structure Serializer (α : Type) : Type where
  serializeStr : List Char → α
  serializeNone : α

/-- `object_id_as_string`: serialize an ObjectId as its hex string. -/
def object_id_as_string {α : Type} (id : ObjectId) (serializer : Serializer α) : α :=
  serializer.serializeStr id.to_hex

/-- `opt_object_id_as_string`: serialize `Some oid` as its hex string and
`None` as the serializer's none value. -/
def opt_object_id_as_string {α : Type} (id : Option ObjectId) (serializer : Serializer α) : α :=
  match id with
  | some oid => serializer.serializeStr oid.to_hex
  | none => serializer.serializeNone

/-- `string_id_to_obj_id`: `ObjectId::parse_str(id).ok()` — parse a
24-character hex string into an ObjectId, `none` on any failure. -/
def string_id_to_obj_id (id : List Char) : Option ObjectId :=
  if id.length = 24 then
    (hexToBytes id).bind (fun bs =>
      if h : bs.length = 12 ∧ ∀ b ∈ bs, b < 256 then some ⟨bs, h⟩ else none)
  else none

/-! ### Password hashing (`hash_password`, `verify_password`)

The argon2 crate's digest primitive is abstracted as a function
`hfun : List Char → List Char → List Char` from password and salt to the
B64-encoded digest; the PHC string format produced by
`PasswordHash::to_string` and parsed by `PasswordHash::new` is modelled
concretely as dollar-separated fields. -/

/-- Algorithm identifier field of the PHC string (`Argon2::default()` is
Argon2id). -/
def phcAlg : List Char := "argon2id".toList

/-- Version field of the PHC string (`Argon2::default()` is version 19). -/
def phcVer : List Char := "v=19".toList

/-- Parameter field of the PHC string (`Params::default()`). -/
def phcParams : List Char := "m=19456,t=2,p=1".toList

/-- Split a character list at every dollar sign, the field separator of the
PHC string format. -/
def splitDollar : List Char → List (List Char)
  | [] => [[]]
  | c :: rest =>
    if c = '$' then [] :: splitDollar rest
    else
      match splitDollar rest with
      | [] => [[c]]
      | h :: t => (c :: h) :: t

/-- PHC string `$argon2id$v=19$m=19456,t=2,p=1$<salt>$<digest>` produced by
`PasswordHash::to_string`. -/
def phcEncode (salt digest : List Char) : List Char :=
  '$' :: (phcAlg ++ '$' :: (phcVer ++ '$' :: (phcParams ++ '$' :: (salt ++ '$' :: digest))))

/-- PHC-format parse performed by `PasswordHash::new` followed by the
algorithm check of `Argon2::verify_password`: recover the salt and digest
fields of a well-formed argon2id hash string. -/
def phcParse (s : List Char) : Option (List Char × List Char) :=
  match splitDollar s with
  | [e0, alg, _ver, _params, salt, digest] =>
    if e0 = [] then (if alg = phcAlg then some (salt, digest) else none) else none
  | _ => none

/-- Error type of `argon2::password_hash`. -/
inductive PasswordHashErr : Type
  | invalid
  deriving DecidableEq

/-- `hash_password`: hash the password with a freshly generated salt (passed
explicitly) and render the result as a PHC string. -/
def hash_password (hfun : List Char → List Char → List Char)
    (password salt : List Char) : Except PasswordHashErr (List Char) :=
  Except.ok (phcEncode salt (hfun password salt))

/-- `verify_password`: parse the candidate hash string; on success recompute
the digest from the password and the parsed salt and compare, otherwise
return `false`. -/
def verify_password (hfun : List Char → List Char → List Char)
    (password password_hash : List Char) : Bool :=
  match phcParse password_hash with
  | some (salt, digest) => decide (hfun password salt = digest)
  | none => false

/-! ### Duplicate-key error translation (`handle_duplicate_key_error`, `extract_duplicate_field`) -/

/-- `mongodb::error::WriteFailure`. -/
inductive WriteFailure : Type
  | writeError (code : Int) (message : List Char)
  | writeConcernError (code : Int) (message : List Char)
  deriving DecidableEq

/-- `mongodb::error::ErrorKind`: the write variant, and `other` standing for
every non-write kind. -/
inductive ErrorKind : Type
  | write (wf : WriteFailure)
  | other
  deriving DecidableEq

/-- `mongodb::error::Error`. -/
structure MongoError : Type where
  kind : ErrorKind
  deriving DecidableEq

/-- Literal part of the regex `dup key: \x7b ([^:]+):` — the characters
before the capture group. -/
def dupKeyLit : List Char := ['d', 'u', 'p', ' ', 'k', 'e', 'y', ':', ' ', '{', ' ']

/-- Strip a literal from the front of a list, `none` when it does not start
with the literal. -/
def dropLit : List Char → List Char → Option (List Char)
  | [], s => some s
  | _ :: _, [] => none
  | l :: ls, c :: cs => if c = l then dropLit ls cs else none

/-- Match of `([^:]+):` at the front of `rem`: the maximal nonempty run of
non-colon characters, which must be followed by a colon. -/
def fieldOf (rem : List Char) : Option (List Char) :=
  let f := rem.takeWhile (fun c => decide (c ≠ ':'))
  if f = [] then none
  else if rem.dropWhile (fun c => decide (c ≠ ':')) = [] then none
  else some f

/-- Leftmost match of the regex `dup key: \x7b ([^:]+):` over the message,
returning the capture group. -/
def findDupKey : List Char → Option (List Char)
  | [] => none
  | c :: cs =>
    match dropLit dupKeyLit (c :: cs) with
    | some rem =>
      match fieldOf rem with
      | some f => some f
      | none => findDupKey cs
    | none => findDupKey cs

/-- `extract_duplicate_field`: first capture of the duplicate-key regex over
the error message. -/
def extract_duplicate_field (message : List Char) : Option (List Char) :=
  findDupKey message

/-- Suffix appended to the duplicated field in the conflict message. -/
def sudahDigunakan : List Char := (" sudah digunakan").toList

/-- `handle_duplicate_key_error`: translate a code-11000 write error whose
message matches the duplicate-key regex into a `Conflict`; `none` otherwise
(the non-`WriteError` write-failure arm only logs a warning). -/
def handle_duplicate_key_error (err : MongoError) : Option ServiceError :=
  match err.kind with
  | ErrorKind.write (WriteFailure.writeError code msg) =>
    if code = 11000 then
      match extract_duplicate_field msg with
      | some field => some (ServiceError.conflict (field ++ sudahDigunakan))
      | none => none
    else none
  | ErrorKind.write (WriteFailure.writeConcernError _ _) => none
  | ErrorKind.other => none

/-! ### Random SKU generation (`generate_random_sku`) -/

/-- The nanoid crate's default (URL-safe) alphabet, from which `nanoid!(5)`
draws its characters. -/
def nanoidAlphabet : List Char :=
  ("_-0123456789abcdefghijklmnopqrstuvwxyzABCDEFGHIJKLMNOPQRSTUVWXYZ").toList

/-- Rust `char` uppercasing restricted to the ASCII range, which is exact for
every character of the nanoid alphabet. -/
def rustToUppercase (c : Char) : Char :=
  if 'a' ≤ c ∧ c ≤ 'z' then Char.ofNat (c.toNat - 32) else c

/-- `generate_random_sku`: `format!("SKU-\x7b\x7d", nanoid!(5).to_uppercase())`
with the five drawn characters passed explicitly. -/
def generate_random_sku (draw : List Char) : List Char :=
  ("SKU-").toList ++ draw.map rustToUppercase

/-- Characters that can appear after the `SKU-` tag: the nanoid alphabet
with every lowercase letter replaced by its uppercase form. -/
def skuUpperChars : List Char :=
  ("_-0123456789ABCDEFGHIJKLMNOPQRSTUVWXYZ").toList

/-! ### JWT cookie extraction (`extract_user_id_from_cookie`) -/

/-- Modelled from the spec: the JWT claims structure of `crate::utils::jwt`
(src/utils/jwt.rs is not part of this fragment) — a subject and an expiry
timestamp, as used by the shown caller. -/
structure Claims : Type where
  sub : List Char
  exp : Nat
  deriving DecidableEq

/-- An actix `HttpRequest` restricted to what the source reads: its cookies,
as a name-to-value association list (`req.cookie` returns the first match). -/
structure HttpRequest : Type where
  cookies : List (List Char × List Char)
  deriving DecidableEq

/-- `HttpRequest::cookie`: value of the first cookie with the given name. -/
def HttpRequest.cookie (req : HttpRequest) (name : List Char) : Option (List Char) :=
  (req.cookies.find? (fun kv => decide (kv.1 = name))).map (fun kv => kv.2)

/-- Name of the cookie the source reads. -/
def authTokenName : List Char := ("auth_token").toList

/-- `extract_user_id_from_cookie`: read the `auth_token` cookie, decode it as
a JWT, reject expired tokens, and return the subject claim. `decodeJwt`
(for `decode_jwt`, `Err` collapsed to `none` by the source's `map_err`) and
`isExpired` (for `is_jwt_expired`) are the functions of the crate's `jwt`
module, passed as parameters. -/
def extract_user_id_from_cookie (decodeJwt : List Char → Option Claims)
    (isExpired : Nat → Bool) (req : HttpRequest) : Except ServiceError (List Char) :=
  match req.cookie authTokenName with
  | none => Except.error (ServiceError.unauthorized ("Token tidak ditemukan").toList)
  | some token =>
    match decodeJwt token with
    | none => Except.error (ServiceError.unauthorized ("Token tidak valid").toList)
    | some claims =>
      if isExpired claims.exp then
        Except.error (ServiceError.unauthorized ("Token sudah expired").toList)
      else
        Except.ok claims.sub

/-! ### Helper lemmas -/

/-- Splitting a list that starts with a dollar sign yields an empty first
field. -/
theorem splitDollar_cons_dollar (rest : List Char) :
    splitDollar ('$' :: rest) = [] :: splitDollar rest := by
  simp [splitDollar]

/-- Splitting a dollar-free field followed by a dollar sign peels off the
field. -/
theorem splitDollar_field (a rest : List Char) (ha : '$' ∉ a) :
    splitDollar (a ++ '$' :: rest) = a :: splitDollar rest := by
  induction a with
  | nil => simpa using splitDollar_cons_dollar rest
  | cons c a' ih =>
    have hc : c ≠ '$' := fun h => ha (by simp [h])
    have ha' : '$' ∉ a' := fun h => ha (List.mem_cons_of_mem _ h)
    show splitDollar (c :: (a' ++ '$' :: rest)) = (c :: a') :: splitDollar rest
    rw [splitDollar, if_neg hc, ih ha']

/-- Splitting a dollar-free list yields the single field. -/
theorem splitDollar_nodollar (a : List Char) (ha : '$' ∉ a) :
    splitDollar a = [a] := by
  induction a with
  | nil => rfl
  | cons c a' ih =>
    have hc : c ≠ '$' := fun h => ha (by simp [h])
    have ha' : '$' ∉ a' := fun h => ha (List.mem_cons_of_mem _ h)
    show splitDollar (c :: a') = [c :: a']
    rw [splitDollar, if_neg hc, ih ha']

/-- Parsing a freshly encoded PHC string recovers its salt and digest
fields, provided neither contains the field separator. -/
theorem phcParse_phcEncode (salt digest : List Char)
    (hs : '$' ∉ salt) (hd : '$' ∉ digest) :
    phcParse (phcEncode salt digest) = some (salt, digest) := by
  have h1 : '$' ∉ phcAlg := by decide
  have h2 : '$' ∉ phcVer := by decide
  have h3 : '$' ∉ phcParams := by decide
  rw [phcParse, phcEncode, splitDollar_cons_dollar, splitDollar_field _ _ h1,
    splitDollar_field _ _ h2, splitDollar_field _ _ h3, splitDollar_field _ _ hs,
    splitDollar_nodollar _ hd]
  simp

/-- A hex digit character decodes back to its value. -/
theorem hexCharVal_hexDigitChar (d : Nat) (hd : d < 16) :
    hexCharVal (hexDigitChar d) = some d := by
  interval_cases d <;> rfl

/-- Hex encoding doubles the length. -/
theorem bytesToHex_length (bs : List Nat) :
    (bytesToHex bs).length = 2 * bs.length := by
  induction bs with
  | nil => rfl
  | cons b bs ih => simp [bytesToHex, ih]; omega

/-- Hex decoding is a left inverse of hex encoding on byte lists. -/
theorem hexToBytes_bytesToHex (bs : List Nat) (hb : ∀ b ∈ bs, b < 256) :
    hexToBytes (bytesToHex bs) = some bs := by
  induction bs with
  | nil => rfl
  | cons b bs ih =>
    have hb0 : b < 256 := hb b (List.mem_cons_self _ _)
    have h1 : b / 16 < 16 := by omega
    have h2 : b % 16 < 16 := Nat.mod_lt _ (by norm_num)
    have ih' := ih (fun x hx => hb x (List.mem_cons_of_mem _ hx))
    simp [bytesToHex, hexToBytes, hexCharVal_hexDigitChar _ h1,
      hexCharVal_hexDigitChar _ h2, ih']
    omega

/-- Uppercasing keeps every nanoid-alphabet character inside the SKU
character set. -/
theorem rustToUppercase_mem (c : Char) (hc : c ∈ nanoidAlphabet) :
    rustToUppercase c ∈ skuUpperChars := by
  revert c
  decide

/-! ### Claim theorems -/

/-- C1: for every password `p`, if `hash_password p` returns `Ok h` (under
the salt drawn from the random source), then `verify_password p h` returns
`true`. The argon2 digest primitive is universally quantified; the
hypotheses record the library invariant that the B64-encoded salt and
digest never contain the PHC field separator. -/
theorem hash_password_verify_roundtrip
    (hfun : List Char → List Char → List Char) (p salt h : List Char)
    (hs : '$' ∉ salt) (hd : '$' ∉ hfun p salt)
    (hok : hash_password hfun p salt = Except.ok h) :
    verify_password hfun p h = true := by
  have hh : phcEncode salt (hfun p salt) = h := by
    simpa [hash_password] using hok
  subst hh
  rw [verify_password, phcParse_phcEncode _ _ hs hd]
  simp

/-- Witness for C1 at a concrete digest function, password and salt. -/
theorem hash_password_verify_roundtrip_witness :
    ('$' ∉ ("salty").toList) ∧
      verify_password (fun p s => p ++ s) ("pw").toList
        (phcEncode ("salty").toList (("pw").toList ++ ("salty").toList)) = true :=
  ⟨by decide,
    hash_password_verify_roundtrip (fun p s => p ++ s) ("pw").toList
      ("salty").toList _ (by decide) (by decide) rfl⟩

/-- C8: `verify_password` is total (it is a Lean function into `Bool`) and
returns `false` on every candidate hash string that fails to parse as a
password hash. -/
theorem verify_password_false_on_parse_failure
    (hfun : List Char → List Char → List Char) (p h : List Char)
    (hparse : phcParse h = none) :
    verify_password hfun p h = false := by
  rw [verify_password, hparse]

/-- Witness for C8 at a concrete non-PHC string. -/
theorem verify_password_false_on_parse_failure_witness :
    phcParse ("nothash").toList = none ∧
      verify_password (fun _ _ => []) ("pw").toList ("nothash").toList = false :=
  ⟨by decide,
    verify_password_false_on_parse_failure (fun _ _ => []) ("pw").toList
      ("nothash").toList (by decide)⟩

/-- C4: parsing the string that `object_id_as_string` serializes — the
24-character hexadecimal representation of the ObjectId — with
`string_id_to_obj_id` yields `some oid`: deserialization is a left inverse
of serialization. -/
theorem string_id_to_obj_id_leftInverse (oid : ObjectId) :
    (ObjectId.to_hex oid).length = 24 ∧
      string_id_to_obj_id (ObjectId.to_hex oid) = some oid ∧
      ∀ (α : Type) (s : Serializer α),
        object_id_as_string oid s = s.serializeStr (ObjectId.to_hex oid) := by
  obtain ⟨bs, hlen, hb⟩ := oid
  have hlen24 : (bytesToHex bs).length = 24 := by
    rw [bytesToHex_length, hlen]
  refine ⟨hlen24, ?_, fun α s => rfl⟩
  show string_id_to_obj_id (bytesToHex bs) = _
  rw [string_id_to_obj_id, if_pos hlen24, hexToBytes_bytesToHex bs hb,
    Option.some_bind, dif_pos (⟨hlen, hb⟩ : bs.length = 12 ∧ ∀ b ∈ bs, b < 256)]

/-- C10: `opt_object_id_as_string` agrees with `object_id_as_string` on
present values and serializes `None` as the serializer's none value. -/
theorem opt_object_id_as_string_agrees (α : Type) (s : Serializer α) (oid : ObjectId) :
    opt_object_id_as_string (some oid) s = object_id_as_string oid s ∧
      opt_object_id_as_string (none : Option ObjectId) s = s.serializeNone :=
  ⟨rfl, rfl⟩

/-- C9: every SKU built from a five-character nanoid draw has length nine,
begins with `SKU-`, and its remaining five characters are uppercase
letters, digits, underscores or hyphens. -/
theorem generate_random_sku_shape (draw : List Char) (hlen : draw.length = 5)
    (halpha : ∀ c ∈ draw, c ∈ nanoidAlphabet) :
    (generate_random_sku draw).length = 9 ∧
      (generate_random_sku draw).take 4 = ("SKU-").toList ∧
      ∀ c ∈ (generate_random_sku draw).drop 4, c ∈ skuUpperChars := by
  refine ⟨?_, rfl, ?_⟩
  · simp [generate_random_sku, hlen]
  · intro c hc
    have hc' : c ∈ draw.map rustToUppercase := hc
    obtain ⟨a, ha, rfl⟩ := List.mem_map.mp hc'
    exact rustToUppercase_mem a (halpha a ha)

/-- Witness for C9 at a concrete five-character draw. -/
theorem generate_random_sku_shape_witness :
    (("x7d2f").toList.length = 5 ∧ ∀ c ∈ ("x7d2f").toList, c ∈ nanoidAlphabet) ∧
      ((generate_random_sku ("x7d2f").toList).length = 9 ∧
        (generate_random_sku ("x7d2f").toList).take 4 = ("SKU-").toList ∧
        ∀ c ∈ (generate_random_sku ("x7d2f").toList).drop 4, c ∈ skuUpperChars) :=
  ⟨⟨by decide, by decide⟩,
    generate_random_sku_shape ("x7d2f").toList (by decide) (by decide)⟩

/-- C2: `extract_user_id_from_cookie` returns an `Unauthorized` service error
exactly when the `auth_token` cookie is absent, the cookie value fails JWT
decoding, or the decoded token is expired; in every other case it returns
`Ok` with the decoded token's `sub` claim. The crate's JWT decoder and
expiry check are universally quantified. -/
theorem extract_user_id_from_cookie_spec
    (decodeJwt : List Char → Option Claims) (isExpired : Nat → Bool)
    (req : HttpRequest) :
    ((∃ m, extract_user_id_from_cookie decodeJwt isExpired req
        = Except.error (ServiceError.unauthorized m)) ↔
      (req.cookie authTokenName = none ∨
        ∃ t, req.cookie authTokenName = some t ∧
          (decodeJwt t = none ∨
            ∃ c, decodeJwt t = some c ∧ isExpired c.exp = true))) ∧
    ((∃ m, extract_user_id_from_cookie decodeJwt isExpired req
        = Except.error (ServiceError.unauthorized m)) ∨
      ∃ t c, req.cookie authTokenName = some t ∧ decodeJwt t = some c ∧
        isExpired c.exp = false ∧
        extract_user_id_from_cookie decodeJwt isExpired req = Except.ok c.sub) := by
  rcases hcook : req.cookie authTokenName with _ | t
  · constructor
    · simp [extract_user_id_from_cookie, hcook]
    · left
      exact ⟨("Token tidak ditemukan").toList,
        by simp [extract_user_id_from_cookie, hcook]⟩
  · rcases hdec : decodeJwt t with _ | c
    · constructor
      · simp [extract_user_id_from_cookie, hcook, hdec]
      · left
        exact ⟨("Token tidak valid").toList,
          by simp [extract_user_id_from_cookie, hcook, hdec]⟩
    · rcases hexp : isExpired c.exp with _ | _
      · constructor
        · simp [extract_user_id_from_cookie, hcook, hdec, hexp]
        · right
          refine ⟨t, c, rfl, hdec, hexp, ?_⟩
          simp [extract_user_id_from_cookie, hcook, hdec, hexp]
      · constructor
        · simp [extract_user_id_from_cookie, hcook, hdec, hexp]
        · left
          exact ⟨("Token sudah expired").toList,
            by simp [extract_user_id_from_cookie, hcook, hdec, hexp]⟩

/-- C3: `handle_duplicate_key_error` returns `some Conflict` exactly when
the error is a `WriteError` write failure with code 11000 whose message
matches the duplicate-key regex (`extract_duplicate_field` succeeds), and
it never returns anything but `none` or a `Conflict`. -/
theorem handle_duplicate_key_error_spec (e : MongoError) :
    ((∃ m, handle_duplicate_key_error e = some (ServiceError.conflict m)) ↔
      ∃ msg, e.kind = ErrorKind.write (WriteFailure.writeError 11000 msg) ∧
        (extract_duplicate_field msg).isSome = true) ∧
    (handle_duplicate_key_error e = none ∨
      ∃ m, handle_duplicate_key_error e = some (ServiceError.conflict m)) := by
  obtain ⟨k⟩ := e
  cases k with
  | write wf =>
    cases wf with
    | writeError code msg =>
      by_cases hcode : code = 11000
      · subst hcode
        rcases hf : extract_duplicate_field msg with _ | field
        · simp [handle_duplicate_key_error, hf]
        · simp [handle_duplicate_key_error, hf]
      · simp [handle_duplicate_key_error, hcode]
    | writeConcernError code msg =>
      simp [handle_duplicate_key_error]
  | other =>
    simp [handle_duplicate_key_error]

/-- C5: every service error the file produces is `Unauthorized` or
`Conflict`: `handle_duplicate_key_error` yields `none` or a `Conflict`,
and `extract_user_id_from_cookie` yields `Ok` or an `Unauthorized`. -/
theorem service_error_variants (e : MongoError)
    (decodeJwt : List Char → Option Claims) (isExpired : Nat → Bool)
    (req : HttpRequest) :
    (handle_duplicate_key_error e = none ∨
      ∃ m, handle_duplicate_key_error e = some (ServiceError.conflict m)) ∧
    ((∃ s, extract_user_id_from_cookie decodeJwt isExpired req = Except.ok s) ∨
      ∃ m, extract_user_id_from_cookie decodeJwt isExpired req
        = Except.error (ServiceError.unauthorized m)) := by
  constructor
  · obtain ⟨k⟩ := e
    cases k with
    | write wf =>
      cases wf with
      | writeError code msg =>
        by_cases hcode : code = 11000
        · subst hcode
          rcases hf : extract_duplicate_field msg with _ | field
          · simp [handle_duplicate_key_error, hf]
          · simp [handle_duplicate_key_error, hf]
        · simp [handle_duplicate_key_error, hcode]
      | writeConcernError code msg =>
        simp [handle_duplicate_key_error]
    | other =>
      simp [handle_duplicate_key_error]
  · rcases hcook : req.cookie authTokenName with _ | t
    · right
      exact ⟨("Token tidak ditemukan").toList,
        by simp [extract_user_id_from_cookie, hcook]⟩
    · rcases hdec : decodeJwt t with _ | c
      · right
        exact ⟨("Token tidak valid").toList,
          by simp [extract_user_id_from_cookie, hcook, hdec]⟩
      · rcases hexp : isExpired c.exp with _ | _
        · left
          exact ⟨c.sub, by simp [extract_user_id_from_cookie, hcook, hdec, hexp]⟩
        · right
          exact ⟨("Token sudah expired").toList,
            by simp [extract_user_id_from_cookie, hcook, hdec, hexp]⟩

/-- Counterexample for C6: `handle_duplicate_key_error`'s result is built
from the result of `extract_duplicate_field`, a function defined in the
same file; at the concrete message below its `Conflict` payload is exactly
the field captured by `extract_duplicate_field`, and on a message that
helper rejects the result flips to `none`. -/
theorem handle_depends_on_extract_cex :
    extract_duplicate_field (dupKeyLit ++ ("email: x").toList)
        = some (("email").toList) ∧
      handle_duplicate_key_error
          ⟨ErrorKind.write (WriteFailure.writeError 11000
            (dupKeyLit ++ ("email: x").toList))⟩
        = some (ServiceError.conflict (("email").toList ++ sudahDigunakan)) ∧
      extract_duplicate_field ("no duplicate here").toList = none ∧
      handle_duplicate_key_error
          ⟨ErrorKind.write (WriteFailure.writeError 11000
            ("no duplicate here").toList)⟩
        = none := by
  decide

/-- C6 amended: every function in the file is callable in isolation and no
function's result depends on calling another function defined in the same
file, except `handle_duplicate_key_error`, whose result on a code-11000
write error factors through the file's helper `extract_duplicate_field`. -/
theorem handle_duplicate_key_error_factors (msg : List Char) :
    handle_duplicate_key_error
        ⟨ErrorKind.write (WriteFailure.writeError 11000 msg)⟩
      = (extract_duplicate_field msg).map
          (fun f => ServiceError.conflict (f ++ sudahDigunakan)) := by
  rcases hf : extract_duplicate_field msg with _ | field <;>
    simp [handle_duplicate_key_error, hf]

/-- C7: every function in the file is stateless and deterministic — two runs
on equal arguments and equal drawn randomness (the salt, the nanoid draw)
produce equal results. -/
theorem utils_functions_deterministic
    (hfun : List Char → List Char → List Char)
    (decodeJwt : List Char → Option Claims) (isExpired : Nat → Bool)
    (α : Type) (ser : Serializer α)
    (p p' salt salt' h h' m m' d d' s s' : List Char) (e e' : MongoError)
    (req req' : HttpRequest) (oid oid' : ObjectId)
    (hp : p = p') (hsalt : salt = salt') (hh : h = h') (hm : m = m')
    (hd : d = d') (hs : s = s') (he : e = e') (hreq : req = req')
    (hoid : oid = oid') :
    hash_password hfun p salt = hash_password hfun p' salt' ∧
      verify_password hfun p h = verify_password hfun p' h' ∧
      handle_duplicate_key_error e = handle_duplicate_key_error e' ∧
      extract_duplicate_field m = extract_duplicate_field m' ∧
      generate_random_sku d = generate_random_sku d' ∧
      string_id_to_obj_id s = string_id_to_obj_id s' ∧
      object_id_as_string oid ser = object_id_as_string oid' ser ∧
      opt_object_id_as_string (some oid) ser = opt_object_id_as_string (some oid') ser ∧
      extract_user_id_from_cookie decodeJwt isExpired req
        = extract_user_id_from_cookie decodeJwt isExpired req' := by
  subst hp hsalt hh hm hd hs he hreq hoid
  exact ⟨rfl, rfl, rfl, rfl, rfl, rfl, rfl, rfl, rfl⟩

/-- Witness for C7 at concrete arguments. -/
theorem utils_functions_deterministic_witness :
    hash_password (fun p s => p ++ s) ("a").toList ("b").toList
        = hash_password (fun p s => p ++ s) ("a").toList ("b").toList ∧
      verify_password (fun p s => p ++ s) ("a").toList ("c").toList
        = verify_password (fun p s => p ++ s) ("a").toList ("c").toList ∧
      handle_duplicate_key_error ⟨ErrorKind.other⟩
        = handle_duplicate_key_error ⟨ErrorKind.other⟩ ∧
      extract_duplicate_field ("m").toList = extract_duplicate_field ("m").toList ∧
      generate_random_sku ("x7d2f").toList = generate_random_sku ("x7d2f").toList ∧
      string_id_to_obj_id ("s").toList = string_id_to_obj_id ("s").toList ∧
      object_id_as_string ⟨List.replicate 12 0, by decide⟩
          (⟨fun l => l, []⟩ : Serializer (List Char))
        = object_id_as_string ⟨List.replicate 12 0, by decide⟩
          (⟨fun l => l, []⟩ : Serializer (List Char)) ∧
      opt_object_id_as_string (some ⟨List.replicate 12 0, by decide⟩)
          (⟨fun l => l, []⟩ : Serializer (List Char))
        = opt_object_id_as_string (some ⟨List.replicate 12 0, by decide⟩)
          (⟨fun l => l, []⟩ : Serializer (List Char)) ∧
      extract_user_id_from_cookie (fun _ => none) (fun _ => false) ⟨[]⟩
        = extract_user_id_from_cookie (fun _ => none) (fun _ => false) ⟨[]⟩ :=
  utils_functions_deterministic (fun p s => p ++ s) (fun _ => none) (fun _ => false)
    (List Char) ⟨fun l => l, []⟩ ("a").toList ("a").toList ("b").toList ("b").toList
    ("c").toList ("c").toList ("m").toList ("m").toList ("x7d2f").toList ("x7d2f").toList
    ("s").toList ("s").toList ⟨ErrorKind.other⟩ ⟨ErrorKind.other⟩ ⟨[]⟩ ⟨[]⟩
    ⟨List.replicate 12 0, by decide⟩ ⟨List.replicate 12 0, by decide⟩
    rfl rfl rfl rfl rfl rfl rfl rfl rfl
